import Mathlib

set_option maxRecDepth 100000

/-
Shallow embedding of the citationlint core (src/extractor.py and
src/verifier.py).

Regular-expression searches are embedded as explicit scanners over
`List Char` that reproduce the leftmost / greedy / lazy backtracking
behaviour of the concrete patterns compiled in the source; Python `str`
operations (`strip`, `rstrip`, `lower`, slicing, `split`, `join`,
`replace`, `in`, `startswith`) are embedded over `List Char` / `String`.
Character classes (`\s`, `\w`, `\d`) and case mapping are modelled on the
ASCII range, which covers the DOI, header and entry-marker alphabets the
program manipulates.
-/

/-- Python `\s` restricted to ASCII: space, tab, newline, carriage return,
vertical tab (0x0b), form feed (0x0c). -/
def pyWs (c : Char) : Bool :=
  c = ' ' || c = '\t' || c = '\n' || c = '\r' || c = Char.ofNat 11 || c = Char.ofNat 12

/-- Python `\w` restricted to ASCII: letters, digits, underscore. -/
def isWordChar (c : Char) : Bool := c.isAlphanum || c = '_'

/-- ASCII model of Python `str.lower` on one character. -/
def lowerC (c : Char) : Char := c.toLower

/-- ASCII model of Python `str.lower`. -/
def lowerStr (s : String) : String := ⟨s.data.map lowerC⟩

/-- Python `s.strip()` on a character list: whitespace removed at both ends. -/
def pyStripL (l : List Char) : List Char :=
  ((l.dropWhile pyWs).reverse.dropWhile pyWs).reverse

/-- Python `s.strip()`. -/
def pyStrip (s : String) : String := ⟨pyStripL s.data⟩

/-- Python `s.rstrip(set)`: trailing characters drawn from `set` removed. -/
def pyRstrip (set : List Char) (l : List Char) : List Char :=
  (l.reverse.dropWhile (fun c => set.contains c)).reverse

/-- Does the haystack start with the needle (`needle` first argument)? -/
def listStartsWith : List Char → List Char → Bool
  | [], _ => true
  | _ :: _, [] => false
  | n :: ns, h :: hs => n = h && listStartsWith ns hs

def containsAux (needle : List Char) : List Char → Bool
  | [] => needle.isEmpty
  | h :: hs => listStartsWith needle (h :: hs) || containsAux needle hs

/-- Python substring test `needle in hay`. -/
def strContains (hay needle : String) : Bool := containsAux needle.data hay.data

/-! ### DOI_PATTERN (src/extractor.py lines 18-21)

`10\.\d{4,9}/[^\s\[\]<>"'{}|\\^`+backtick+`]+` with IGNORECASE (the flag is
irrelevant: the pattern contains no cased literal). -/

/-- The characters excluded from a DOI suffix by the negated character class
of `DOI_PATTERN`: whitespace plus the bracket/quote set. -/
def doiSuffixExcluded : List Char :=
  ['[', ']', '<', '>', '|', '^',
   Char.ofNat 34,   -- double quote
   Char.ofNat 39,   -- apostrophe
   Char.ofNat 92,   -- backslash
   Char.ofNat 96,   -- backtick
   Char.ofNat 123,  -- left brace
   Char.ofNat 125]  -- right brace

def doiSuffixOk (c : Char) : Bool := !(pyWs c || doiSuffixExcluded.contains c)

/-- One attempt of `DOI_PATTERN` at the current position: literal `10.`, a
maximal digit run whose length must land in 4..9 (the greedy `\d{4,9}` can
only succeed on the whole run: any shorter split leaves a digit where `/` is
required), `/`, then a maximal nonempty run of allowed suffix characters.
Returns (matched characters, remainder of the input). -/
def doiMatchHere : List Char → Option (List Char × List Char)
  | '1' :: '0' :: '.' :: rest =>
    let ds := rest.takeWhile Char.isDigit
    if 4 ≤ ds.length && ds.length ≤ 9 then
      match rest.drop ds.length with
      | '/' :: rest2 =>
        let suf := rest2.takeWhile doiSuffixOk
        if suf.length = 0 then none
        else some ('1' :: '0' :: '.' :: (ds ++ '/' :: suf), rest2.drop suf.length)
      | _ => none
    else none
  | _ => none

/-- Leftmost, non-overlapping scan: `re.finditer` / `re.findall` resume at
the end of each match and advance one position past a failed attempt. -/
def doiFindAllAux : Nat → List Char → List (List Char)
  | 0, _ => []
  | _, [] => []
  | fuel + 1, c :: cs =>
    match doiMatchHere (c :: cs) with
    | some (m, rest) => m :: doiFindAllAux fuel rest
    | none => doiFindAllAux fuel cs

/-- `DOI_PATTERN.findall(text)`. -/
def doiFindAll (text : String) : List String :=
  (doiFindAllAux text.data.length text.data).map (fun l => ⟨l⟩)

/-- `DOI_PATTERN.search(text)` used as a boolean. -/
def doiSearch (text : String) : Bool := !(doiFindAll text).isEmpty

/-! ### clean_doi (src/extractor.py lines 147-155) -/

/-- The trailing-punctuation set of the extractor's `clean_doi`:
`. , ; : ) ] } ' "`. -/
def extractorStripSet : List Char :=
  ['.', ',', ';', ':', ')', ']', Char.ofNat 125, Char.ofNat 39, Char.ofNat 34]

/-- `re.sub(r'&[a-z]+;', '', doi)`: delete every `&name;` entity (nonempty
lower-case name; the greedy `[a-z]+` can only succeed on the maximal run),
scanning left to right. -/
def removeEntitiesAux : Nat → List Char → List Char
  | 0, l => l
  | _, [] => []
  | fuel + 1, c :: cs =>
    if c = '&' then
      let run := cs.takeWhile (fun x => 'a' ≤ x && x ≤ 'z')
      if 0 < run.length then
        match cs.drop run.length with
        | ';' :: rest => removeEntitiesAux fuel rest
        | _ => c :: removeEntitiesAux fuel cs
      else c :: removeEntitiesAux fuel cs
    else c :: removeEntitiesAux fuel cs

/-- `clean_doi` from src/extractor.py: rstrip of the punctuation set, then
removal of `&[a-z]+;` entities. -/
def clean_doi (doi : String) : String :=
  let l := pyRstrip extractorStripSet doi.data
  ⟨removeEntitiesAux l.length l⟩

/-! ### extract_dois (src/extractor.py lines 158-181) -/

/-- The accumulator loop of `extract_dois`; `seen` holds the lowered forms
already emitted.  A match is emitted when its lowered form is unseen and its
cleaned length exceeds 10; a short match is skipped without entering `seen`. -/
def extractDoisLoop : List String → List String → List String
  | _, [] => []
  | seen, d :: ds =>
    if seen.contains (lowerStr d) then extractDoisLoop seen ds
    else if 10 < d.length then d :: extractDoisLoop (lowerStr d :: seen) ds
    else extractDoisLoop seen ds

/-- `extract_dois`: find all raw matches, clean each, deduplicate. -/
def extract_dois (text : String) : List String :=
  extractDoisLoop [] ((doiFindAll text).map clean_doi)

/-- Specification-side restatement of the deduplication contract, in the
spec's words: discard cleaned matches of length ≤ 10 as noise; otherwise the
first occurrence wins (case-insensitively) and fixes the cased form and the
output position (insertion order). -/
def specDedupDois : List String → List String
  | [] => []
  | d :: ds =>
    if 10 < d.length then
      d :: specDedupDois (ds.filter (fun e => !(lowerStr e == lowerStr d)))
    else specDedupDois ds
termination_by l => l.length
decreasing_by
  all_goals simp only [List.length_cons]
  · exact Nat.lt_succ_of_le (List.length_filter_le _ _)
  · exact Nat.lt_succ_self _

theorem extractDoisLoop_eq_spec (ds : List String) :
    ∀ seen : List String,
      extractDoisLoop seen ds =
        specDedupDois (ds.filter (fun d => !(seen.contains (lowerStr d)))) := by
  induction ds with
  | nil => intro seen; simp [extractDoisLoop, specDedupDois]
  | cons d ds ih =>
    intro seen
    by_cases hs : seen.contains (lowerStr d)
    · rw [extractDoisLoop, if_pos hs, List.filter_cons, if_neg (by simpa using hs)]
      exact ih seen
    · rw [List.filter_cons, if_pos (by simpa using hs)]
      by_cases hl : 10 < d.length
      · rw [extractDoisLoop, if_neg (by simpa using hs), if_pos hl]
        simp only [specDedupDois, if_pos hl]
        rw [ih (lowerStr d :: seen), List.filter_filter]
        congr 1
        congr 1
        apply List.filter_congr
        intro a _
        by_cases h : lowerStr a = lowerStr d <;>
          simp [h, List.contains_cons, beq_iff_eq, Bool.not_or]
      · rw [extractDoisLoop, if_neg (by simpa using hs), if_neg hl]
        simp only [specDedupDois, if_neg hl]
        exact ih seen

theorem extractDoisLoop_long (ds : List String) :
    ∀ seen d, d ∈ extractDoisLoop seen ds → 10 < d.length := by
  induction ds with
  | nil => intro seen d h; simp [extractDoisLoop] at h
  | cons e ds ih =>
    intro seen d h
    rw [extractDoisLoop] at h
    by_cases hs : seen.contains (lowerStr e)
    · rw [if_pos hs] at h; exact ih seen d h
    · rw [if_neg hs] at h
      by_cases hl : 10 < e.length
      · rw [if_pos hl] at h
        rcases List.mem_cons.mp h with h | h
        · simpa [h] using hl
        · exact ih _ d h
      · rw [if_neg hl] at h; exact ih seen d h

/-- C4 (confirmed): `extract_dois` returns the cleaned matches of
`DOI_PATTERN`, deduplicated case-insensitively with the first occurrence
fixing the cased form and the output position (insertion order), and every
match whose cleaned form has length 10 or fewer is discarded. -/
theorem C4_extract_dois_dedup (text : String) :
    extract_dois text = specDedupDois ((doiFindAll text).map clean_doi)
  ∧ ∀ d ∈ extract_dois text, 10 < d.length := by
  constructor
  · rw [extract_dois, extractDoisLoop_eq_spec]
    congr 1
    apply List.filter_eq_self.mpr
    intro a _
    rfl
  · intro d hd
    rw [extract_dois] at hd
    exact extractDoisLoop_long _ _ _ hd

/-- C4 witness: a concrete run; the trailing period is cleaned away, the
cleaned match is retained, and the retained DOI has length above 10. -/
theorem C4_witness : 10 < ("10.1038/nature12373" : String).length :=
  (C4_extract_dois_dedup "see 10.1038/nature12373. and 10.1038/NATURE12373.").2
    "10.1038/nature12373" (by decide)

/-! ### REFERENCE_HEADERS and find_references_section
(src/extractor.py lines 24-32 and 103-144)

Each header pattern is `\b`-delimited, case-insensitive, with `\s+` between
words.  The two upper-case entries at the end of the source list are
redundant under IGNORECASE but are kept for faithfulness. -/

def REFERENCE_HEADERS : List (List String) :=
  [["References"], ["Bibliography"], ["Works", "Cited"], ["Literature", "Cited"],
   ["Cited", "Works"], ["REFERENCES"], ["BIBLIOGRAPHY"]]

/-- Case-insensitive literal word match; returns the rest on success. -/
def matchCI : List Char → List Char → Option (List Char)
  | [], l => some l
  | _ :: _, [] => none
  | w :: ws, c :: cs => if lowerC c = lowerC w then matchCI ws cs else none

/-- Match a sequence of words joined by `\s+` (the greedy run can only hand
over to the next word at the end of the maximal whitespace run, since words
start with a non-whitespace letter). -/
def matchWords : List (List Char) → List Char → Option (List Char)
  | [], l => some l
  | [w], l => matchCI w l
  | w :: ws, l =>
    match matchCI w l with
    | none => none
    | some r =>
      let sp := (r.takeWhile pyWs).length
      if sp = 0 then none else matchWords ws (r.drop sp)

/-- `\b` before the match: previous character absent or not a word character. -/
def boundaryOk (prev : Option Char) : Bool :=
  match prev with
  | none => true
  | some p => !isWordChar p

/-- `\b` after the match: next character absent or not a word character. -/
def afterBoundaryOk : List Char → Bool
  | [] => true
  | c :: _ => !isWordChar c

/-- `re.search` of one header pattern: index of the leftmost position where
the word sequence matches with word boundaries on both sides. -/
def searchHeaderAux (words : List (List Char)) (prev : Option Char) : List Char → Option Nat
  | [] => none
  | c :: cs =>
    if boundaryOk prev then
      match matchWords words (c :: cs) with
      | some rest =>
        if afterBoundaryOk rest then some 0
        else (searchHeaderAux words (some c) cs).map (· + 1)
      | none => (searchHeaderAux words (some c) cs).map (· + 1)
    else (searchHeaderAux words (some c) cs).map (· + 1)

def searchHeader (words : List String) (text : String) : Option Nat :=
  searchHeaderAux (words.map String.data) none text.data

/-- One keyword alternative of the end pattern
`\n\s*(?:Appendix|Appendices|Supplementary|Acknowledgments?)\s*\n`: the
keyword (case-insensitive) followed by `\s*\n`, i.e. by a whitespace run
containing a newline. -/
def kwTail (w : String) (q : List Char) : Bool :=
  match matchCI w.data q with
  | some r => (r.takeWhile pyWs).contains '\n'
  | none => false

/-- Does the end pattern match starting at this position?  The match starts
at a newline; `\s*` greedily crosses whitespace (including further newlines)
and can only hand over to the keyword at the first non-whitespace character. -/
def endMarkerHere : List Char → Bool
  | '\n' :: rest =>
    let q := rest.dropWhile pyWs
    kwTail "Appendix" q || kwTail "Appendices" q || kwTail "Supplementary" q ||
      kwTail "Acknowledgments" q || kwTail "Acknowledgment" q
  | _ => false

/-- `references_text[:end_match.start()]` for the leftmost end-pattern match
(there is a single end pattern in the source's list). -/
def trimAux : List Char → List Char
  | [] => []
  | c :: cs => if endMarkerHere (c :: cs) then [] else c :: trimAux cs

/-- The header loop of `find_references_section`: the first pattern in list
order that matches anywhere wins, at its own leftmost match position. -/
def firstHeaderIdx (text : String) : Option Nat :=
  REFERENCE_HEADERS.findSome? (fun ws => searchHeader ws text)

def splitNlAux : List Char → List (List Char)
  | [] => [[]]
  | c :: cs =>
    if c = '\n' then [] :: splitNlAux cs
    else
      match splitNlAux cs with
      | h :: t => (c :: h) :: t
      | [] => [[c]]

/-- Python `text.split('\n')`. -/
def pySplitNl (text : String) : List String := (splitNlAux text.data).map (fun l => ⟨l⟩)

/-- Python `'\n'.join(lines)`. -/
def pyJoinNl : List String → String
  | [] => ""
  | [s] => s
  | s :: rest => s ++ "\n" ++ pyJoinNl rest

/-- `find_references_section`: header search in pattern-priority order with
end trimming, then the last-40%-of-lines fallback guarded by a DOI search.
`int(len(lines) * 0.6)` is embedded as `3 * n / 5` (floor): the IEEE double
rounding of `n * 0.6` never crosses an integer boundary for any line count
reachable here, so the Nat form is faithful. -/
def find_references_section (text : String) : Option String :=
  match firstHeaderIdx text with
  | some i => some ⟨trimAux (text.data.drop i)⟩
  | none =>
    let lines := pySplitNl text
    if 50 < lines.length then
      let last_portion := pyJoinNl (lines.drop (3 * lines.length / 5))
      if doiSearch last_portion then some last_portion else none
    else none

/-- Spec-side for C1: the earliest position at which any of the five header
words of the spec matches (word-boundary, case-insensitive). -/
def earliestHeaderStart (text : String) : Option Nat :=
  ((REFERENCE_HEADERS.take 5).filterMap (fun ws => searchHeader ws text)).min?

/-- C1 (corrected): the locator scans header patterns in a fixed priority
order (References, Bibliography, Works Cited, Literature Cited, Cited Works,
plus redundant upper-case duplicates) and returns the span starting at the
leftmost match of the first pattern in that order that matches anywhere,
which need not be the earliest-positioned header occurrence overall. -/
theorem C1_header_priority (text : String) :
    (∀ i, searchHeader ["References"] text = some i →
       find_references_section text = some ⟨trimAux (text.data.drop i)⟩)
  ∧ (∀ j, searchHeader ["References"] text = none →
       searchHeader ["Bibliography"] text = some j →
       find_references_section text = some ⟨trimAux (text.data.drop j)⟩) := by
  constructor
  · intro i h
    rw [find_references_section, firstHeaderIdx, REFERENCE_HEADERS]
    rw [List.findSome?_cons]
    rw [h]
  · intro j h1 h2
    rw [find_references_section, firstHeaderIdx, REFERENCE_HEADERS]
    rw [List.findSome?_cons, h1, List.findSome?_cons, h2]

def cx1 : String := "Bibliography\nX\nReferences\nY"

/-- C1 counterexample: with "Bibliography" at position 0 and "References" at
position 15, the earliest-positioned header match is at 0, yet the code
returns the span starting at the "References" occurrence, because the
"References" pattern is tried first. -/
theorem C1_counterexample :
    find_references_section cx1 = some "References\nY"
  ∧ earliestHeaderStart cx1 = some 0
  ∧ ("References\nY" : String) ≠ cx1 := by decide

/-- C1 witness: the priority theorem applied at the counterexample input. -/
theorem C1_witness : find_references_section cx1 = some "References\nY" := by
  have h := (C1_header_priority cx1).1 15 (by decide)
  rw [h]; decide

def cx5 : String :=
  pyJoinNl (List.replicate 30 "x" ++ ["10.1234/abcdef"] ++ List.replicate 20 "y")

/-- Spec-side for C5: the last `⌊0.4 * n⌋` lines of the text, joined. -/
def specTail40 (text : String) : String :=
  pyJoinNl ((pySplitNl text).drop ((pySplitNl text).length - 2 * (pySplitNl text).length / 5))

/-- C5 counterexample: a 51-line headerless document whose only DOI sits on
line index 30.  The claimed tail (last ⌊0.4·51⌋ = 20 lines) contains no DOI,
so the claim predicts no span is returned; the code keeps the last 21 lines
(`lines[int(51*0.6):] = lines[30:]`) and does return a span. -/
theorem C5_counterexample :
    (find_references_section cx5).isSome = true
  ∧ doiSearch (specTail40 cx5) = false
  ∧ find_references_section cx5 ≠ some (specTail40 cx5) := by decide

/-- C5 (corrected): with no header and more than 50 lines, the fallback tail
consists of the lines from index `⌊0.6 · n⌋` on — that is, the last
`n − ⌊0.6 · n⌋` lines (21 for a 51-line document, not 20) — and the tail is
returned as the span exactly when it contains a DOI-shaped token. -/
theorem C5_fallback_tail (text : String)
    (hh : firstHeaderIdx text = none) (hn : 50 < (pySplitNl text).length) :
    find_references_section text =
      (if doiSearch (pyJoinNl ((pySplitNl text).drop (3 * (pySplitNl text).length / 5)))
       then some (pyJoinNl ((pySplitNl text).drop (3 * (pySplitNl text).length / 5)))
       else none)
  ∧ ((pySplitNl text).drop (3 * (pySplitNl text).length / 5)).length
      = (pySplitNl text).length - 3 * (pySplitNl text).length / 5 := by
  constructor
  · rw [find_references_section, hh]
    simp only [if_pos hn]
  · exact List.length_drop _ _

/-- C5 witness: the fallback theorem applied at the counterexample input;
the returned tail is the one starting at line index 30 = ⌊0.6 · 51⌋, and it
has 21 lines. -/
theorem C5_witness :
    find_references_section cx5 = some (pyJoinNl ((pySplitNl cx5).drop 30))
  ∧ ((pySplitNl cx5).drop (3 * (pySplitNl cx5).length / 5)).length = 21 := by
  have h := C5_fallback_tail cx5 (by decide) (by decide)
  constructor
  · rw [h.1]; decide
  · rw [h.2]; decide

/-! ### parse_numbered_citations (src/extractor.py lines 184-216)

Patterns, compiled with MULTILINE and DOTALL:
  `\[(\d+)\]\s*([^\[\]]+?)(?=\[\d+\]|\Z)`
  `^(\d+)\.\s*([^0-9].+?)(?=^\d+\.|\Z)`
  `\((\d+)\)\s*([^\(\)]+?)(?=\(\d+\)|\Z)` -/

def digitsToNat (ds : List Char) : Nat :=
  ds.foldl (fun n c => 10 * n + (c.toNat - 48)) 0

/-- Lookahead `\[\d+\]` (resp. `\(\d+\)`) or `\Z`: end of input, or the open
delimiter followed by a nonempty digit run and the close delimiter (the
greedy digit run can only hand over to the close delimiter at its end). -/
def delimLookahead (o c : Char) : List Char → Bool
  | [] => true
  | x :: xs =>
    x = o &&
      (let ds := xs.takeWhile Char.isDigit
       0 < ds.length &&
         (match xs.drop ds.length with
          | y :: _ => y = c
          | [] => false))

/-- One attempt of the bracketed / parenthesised entry pattern at the
current position.  After `[N]` the combined `\s*` + lazy body covers the
maximal run of non-delimiter characters following it; since the body class
excludes both delimiters, the lazy body can only satisfy the lookahead at
the end of that run, and the run must be nonempty for the body to be.  On
success returns (entry number, region, rest at the lookahead position); the
region is group 2 up to leading whitespace absorbed by `\s*`, which the
caller strips away. -/
def delimMatchHere (o c : Char) : List Char → Option (Nat × List Char × List Char)
  | [] => none
  | x :: xs =>
    if x = o then
      let ds := xs.takeWhile Char.isDigit
      if 0 < ds.length then
        match xs.drop ds.length with
        | y :: ys =>
          if y = c then
            let r := ys.takeWhile (fun z => !(z = o || z = c))
            if 0 < r.length then
              let rest := ys.drop r.length
              if delimLookahead o c rest then some (digitsToNat ds, r, rest) else none
            else none
          else none
        | [] => none
      else none
    else none

def delimScanAux (o c : Char) : Nat → List Char → List (Nat × List Char)
  | 0, _ => []
  | _, [] => []
  | fuel + 1, x :: xs =>
    match delimMatchHere o c (x :: xs) with
    | some (n, r, rest) => (n, r) :: delimScanAux o c fuel rest
    | none => delimScanAux o c fuel xs

/-- Raw `finditer` matches (number, group-2 region) of the `[N]` pattern. -/
def bracketMatches (text : String) : List (Nat × String) :=
  (delimScanAux '[' ']' text.data.length text.data).map (fun p => (p.1, (⟨p.2⟩ : String)))

/-- Raw `finditer` matches (number, group-2 region) of the `(N)` pattern. -/
def parenMatches (text : String) : List (Nat × String) :=
  (delimScanAux '(' ')' text.data.length text.data).map (fun p => (p.1, (⟨p.2⟩ : String)))

/-- Is the current position a valid lazy stop for `(?=^\d+\.|\Z)`?  `prev`
is the character before the position; `^` (MULTILINE) holds when it is a
newline, and digits followed by `.` must start here.  End of input is `\Z`. -/
def dotStopHere (prev : Char) : List Char → Bool
  | [] => true
  | x :: xs =>
    prev = '\n' &&
      (let ds := (x :: xs).takeWhile Char.isDigit
       0 < ds.length &&
         (match (x :: xs).drop ds.length with
          | '.' :: _ => true
          | _ => false))

/-- Walk the lazy `.+?` forward to its first valid stop (DOTALL: every
character qualifies); returns (offset walked, remainder at the stop).  End
of input is always a stop, so the walk terminates there. -/
def dotWalk : Nat → Char → List Char → Nat × List Char
  | 0, _, l => (0, l)
  | _, _, [] => (0, [])
  | fuel + 1, prev, x :: xs =>
    if dotStopHere prev (x :: xs) then (0, x :: xs)
    else
      let p := dotWalk fuel x xs
      (p.1 + 1, p.2)

/-- Backtracking of `\s*` against `[^0-9].+?` after the entry's dot: Python
keeps `k` whitespace characters in `\s*` (greedy, so the maximal run `W` is
tried first and `k` decreases on failure), needs a non-digit at position `k`
of the remainder and at least one further character for `.+?`, then runs the
lazy walk.  Returns (group-2 body, remainder at the match end). -/
def dotTryK (tail : List Char) : Nat → Nat → Option (List Char × List Char)
  | 0, _ => none
  | fuel + 1, k =>
    let attempt : Option (List Char × List Char) :=
      match tail.drop k with
      | c :: c1 :: rest2 =>
        if c.isDigit then none
        else
          let p := dotWalk (rest2.length + 1) c1 rest2
          some ((tail.drop k).take (2 + p.1), p.2)
      | _ => none
    match attempt with
    | some r => some r
    | none => if k = 0 then none else dotTryK tail fuel (k - 1)

/-- One attempt of `^(\d+)\.\s*([^0-9].+?)(?=^\d+\.|\Z)` at a line start:
a maximal digit run (greedy `\d+` can only hand over to `\.` at its end),
the dot, then the `\s*`-backtracking body search. -/
def dotMatchHere (l : List Char) : Option (Nat × List Char × List Char) :=
  let ds := l.takeWhile Char.isDigit
  if 0 < ds.length then
    match l.drop ds.length with
    | '.' :: tail =>
      let W := (tail.takeWhile pyWs).length
      match dotTryK tail (W + 1) W with
      | some p => some (digitsToNat ds, p.1, p.2)
      | none => none
    | _ => none
  else none

/-- Scan for the line-anchored pattern: an attempt is made at every position
where `^` holds (input start or just after a newline); a successful match
resumes at its lookahead stop, which is itself a line start (or the end). -/
def dotScanAux : Nat → Option Char → List Char → List (Nat × List Char)
  | 0, _, _ => []
  | _, _, [] => []
  | fuel + 1, prev, x :: xs =>
    if (match prev with | none => true | some p => p = '\n') then
      match dotMatchHere (x :: xs) with
      | some (n, body, rest) => (n, body) :: dotScanAux fuel (some '\n') rest
      | none => dotScanAux fuel (some x) xs
    else dotScanAux fuel (some x) xs

/-- Raw `finditer` matches (number, group 2) of the line-anchored `N.`
pattern. -/
def dotMatches (text : String) : List (Nat × String) :=
  (dotScanAux text.data.length none text.data).map (fun p => (p.1, (⟨p.2⟩ : String)))

/-- The per-match body handling inside the accepted pattern's loop: strip
the body; keep the entry only when the stripped body is longer than 20. -/
def entryFilter (m : Nat × String) : Option (Nat × String) :=
  if 20 < (pyStrip m.2).length then some (m.1, pyStrip m.2) else none

/-- `parse_numbered_citations`: the first convention with more than 3 raw
matches is accepted (`if matches and len(matches) > 3`), its matches are
filtered through the 20-character guard, and later conventions are not
attempted. -/
def parse_numbered_citations (text : String) : List (Nat × String) :=
  if 3 < (bracketMatches text).length then (bracketMatches text).filterMap entryFilter
  else if 3 < (dotMatches text).length then (dotMatches text).filterMap entryFilter
  else if 3 < (parenMatches text).length then (parenMatches text).filterMap entryFilter
  else []

/-- C2 (confirmed): a numbering convention is accepted only when it yields
strictly more than 3 raw matches — with at most 3 (in particular exactly 3)
the segmenter falls through to the next convention or to empty, with 4 it
triggers — and the accepted convention's entries are its raw matches whose
stripped bodies exceed 20 characters, so short candidates are excluded from
the output yet still count toward the threshold. -/
theorem C2_segmentation_threshold (text : String) :
    ((bracketMatches text).length ≤ 3 → (dotMatches text).length ≤ 3 →
       (parenMatches text).length ≤ 3 → parse_numbered_citations text = [])
  ∧ (3 < (bracketMatches text).length →
       parse_numbered_citations text = (bracketMatches text).filterMap entryFilter)
  ∧ ((bracketMatches text).length ≤ 3 → 3 < (dotMatches text).length →
       parse_numbered_citations text = (dotMatches text).filterMap entryFilter)
  ∧ ((bracketMatches text).length ≤ 3 → (dotMatches text).length ≤ 3 →
       3 < (parenMatches text).length →
       parse_numbered_citations text = (parenMatches text).filterMap entryFilter) := by
  refine ⟨fun h1 h2 h3 => ?_, fun h1 => ?_, fun h1 h2 => ?_, fun h1 h2 h3 => ?_⟩
  · rw [parse_numbered_citations,
      if_neg (by omega), if_neg (by omega), if_neg (by omega)]
  · rw [parse_numbered_citations, if_pos h1]
  · rw [parse_numbered_citations, if_neg (by omega), if_pos h2]
  · rw [parse_numbered_citations, if_neg (by omega), if_neg (by omega), if_pos h3]

def c2t3 : String :=
  "[1] aaaaaaaaaaaaaaaaaaaaaaaaa [2] bbbbbbbbbbbbbbbbbbbbbbbbb [3] ccccccccccccccccccccccccc"

def c2t4 : String :=
  "[1] aaaaaaaaaaaaaaaaaaaaaaaaa [2] bbbbbbbbbbbbbbbbbbbbbbbbb [3] c [4] ddddddddddddddddddddddddd"

/-- C2 witness: exactly 3 bracketed matches yield no segmentation; adding a
fourth (whose own body is short) triggers the bracketed convention, and the
short entry is dropped from the output while having counted for the
threshold: 4 raw matches, 3 surviving entries. -/
theorem C2_witness :
    ((bracketMatches c2t3).length = 3 ∧ parse_numbered_citations c2t3 = [])
  ∧ ((bracketMatches c2t4).length = 4
     ∧ parse_numbered_citations c2t4 = (bracketMatches c2t4).filterMap entryFilter
     ∧ (parse_numbered_citations c2t4).length = 3) :=
  ⟨⟨by decide, (C2_segmentation_threshold c2t3).1 (by decide) (by decide) (by decide)⟩,
   ⟨by decide, (C2_segmentation_threshold c2t4).2.1 (by decide), by decide⟩⟩

/-! ### extract_citations (src/extractor.py lines 219-310) -/

structure ExtractedCitation where
  number : Nat
  text : String
  doi : Option String := none
  raw_match : Option String := none
deriving DecidableEq

structure ExtractionResult where
  success : Bool
  filename : String
  total_pages : Nat
  citations : List ExtractedCitation
  dois_found : List String
  error : Option String := none
deriving DecidableEq

/-- Python `text[:500]`. -/
def pyTake500 (s : String) : String := ⟨s.data.take 500⟩

/-- The inner `for d in all_dois ... break` loop: the first DOI whose
lowered form is a substring of the lowered entry text. -/
def firstDoiIn : List String → String → Option String
  | [], _ => none
  | d :: ds, t => if strContains (lowerStr t) (lowerStr d) then some d else firstDoiIn ds t

/-- The segmented branch of the citation-building loop. -/
def buildFromParsed : List (Nat × String) → List String → List ExtractedCitation
  | [], _ => []
  | (n, t) :: rest, dois =>
    { number := n, text := pyTake500 t, doi := firstDoiIn dois t } ::
      buildFromParsed rest dois

/-- The fallback branch: `enumerate(all_dois, 1)` with display text
`"DOI: <doi>"` and no truncation. -/
def fallbackCitations : Nat → List String → List ExtractedCitation
  | _, [] => []
  | i, d :: ds =>
    { number := i, text := "DOI: " ++ d, doi := some d } :: fallbackCitations (i + 1) ds

/-- Outcome of the excluded document-to-text collaborator
(`extract_text_from_pdf`): a missing file (FileNotFoundError, caught with
`error=str(e)`), any other raised failure (caught with the
"PDF extraction failed: " prefix), or text plus a page count. -/
inductive PdfSource where
  | fileNotFound (msg : String)
  | readError (msg : String)
  | ok (text : String) (pages : Nat)

/-- `if not ref_text: ref_text = full_text` — the Python falsy test also
catches an empty returned section, hence the inner emptiness check. -/
def refText (full_text : String) : String :=
  match find_references_section full_text with
  | some r => if r = "" then full_text else r
  | none => full_text

/-- `extract_citations`: the top-level orchestration over an already
acquired (or failed) document source. -/
def extract_citations (filename : String) (src : PdfSource) : ExtractionResult :=
  match src with
  | .fileNotFound msg =>
    { success := false, filename := filename, total_pages := 0,
      citations := [], dois_found := [], error := some msg }
  | .readError msg =>
    { success := false, filename := filename, total_pages := 0,
      citations := [], dois_found := [],
      error := some ("PDF extraction failed: " ++ msg) }
  | .ok full_text page_count =>
    if full_text = "" then
      { success := false, filename := filename, total_pages := page_count,
        citations := [], dois_found := [],
        error := some "No text could be extracted from PDF (may be scanned/image-based)" }
    else
      { success := true, filename := filename, total_pages := page_count,
        citations :=
          (if parse_numbered_citations (refText full_text) = []
           then fallbackCitations 1 (extract_dois (refText full_text))
           else buildFromParsed (parse_numbered_citations (refText full_text))
                  (extract_dois (refText full_text))),
        dois_found := extract_dois (refText full_text) }

theorem firstDoiIn_eq_find? (dois : List String) (t : String) :
    firstDoiIn dois t = dois.find? (fun d => strContains (lowerStr t) (lowerStr d)) := by
  induction dois with
  | nil => rfl
  | cons d ds ih =>
    rw [firstDoiIn, List.find?_cons]
    by_cases h : strContains (lowerStr t) (lowerStr d)
    · rw [if_pos h]; simp [h]
    · rw [if_neg h]
      have hb : strContains (lowerStr t) (lowerStr d) = false := by
        revert h; cases strContains (lowerStr t) (lowerStr d) <;> simp
      rw [hb]
      exact ih

theorem buildFromParsed_eq_map (parsed : List (Nat × String)) (dois : List String) :
    buildFromParsed parsed dois =
      parsed.map (fun p =>
        { number := p.1, text := pyTake500 p.2, doi := firstDoiIn dois p.2,
          raw_match := none }) := by
  induction parsed with
  | nil => rfl
  | cons p rest ih =>
    obtain ⟨n, t⟩ := p
    rw [List.map_cons, buildFromParsed, ih]

/-- C3 (confirmed): in the segmented path, each entry is assigned the first
DOI of the deduplicated list (in discovery order) whose lowered string is a
substring of the entry's lowered trimmed text; each entry carries at most
one DOI (an `Option`), and when no DOI is contained the field is `none`. -/
theorem C3_doi_association (parsed : List (Nat × String)) (dois : List String) :
    ((buildFromParsed parsed dois).map (fun c => c.doi)
       = parsed.map (fun p => dois.find? (fun d => strContains (lowerStr p.2) (lowerStr d))))
  ∧ (∀ p ∈ parsed,
       (∀ d ∈ dois, strContains (lowerStr p.2) (lowerStr d) = false) →
       dois.find? (fun d => strContains (lowerStr p.2) (lowerStr d)) = none) := by
  constructor
  · rw [buildFromParsed_eq_map, List.map_map]
    apply List.map_congr_left
    intro p _
    exact firstDoiIn_eq_find? dois p.2
  · intro p _ hnone
    apply List.find?_eq_none.mpr
    intro d hd
    simp [hnone d hd]

def c3parsed : List (Nat × String) :=
  [(1, "Smith, J. (2020). Title. see 10.1000/xyz123 for details"),
   (2, "Doe, A. (2019). Another entry with no identifier")]

def c3dois : List String := ["10.1000/xyz123"]

/-- C3 witness: the spec's own example — the entry containing
`10.1000/xyz123` carries that DOI, the entry containing none carries
`none`. -/
theorem C3_witness :
    ((buildFromParsed c3parsed c3dois).map (fun c => c.doi)
       = [some "10.1000/xyz123", none])
  ∧ c3dois.find?
      (fun d => strContains (lowerStr "Doe, A. (2019). Another entry with no identifier")
        (lowerStr d)) = none := by
  constructor
  · rw [(C3_doi_association c3parsed c3dois).1]; decide
  · exact (C3_doi_association c3parsed c3dois).2
      (2, "Doe, A. (2019). Another entry with no identifier") (by decide) (by decide)

def c10text : String := (⟨List.replicate 500 'a'⟩ : String) ++ " 10.1000/xyz123"

/-- C10 (confirmed): the DOI-substring test runs against the full trimmed
entry text while the stored text is the 500-character truncation, so an
entry whose DOI occurs only after character 500 still gets that DOI even
though the DOI is absent from the reported text — witnessed concretely by a
515-character entry. -/
theorem C10_association_before_truncation (parsed : List (Nat × String)) (dois : List String) :
    (buildFromParsed parsed dois
       = parsed.map (fun p =>
           { number := p.1, text := pyTake500 p.2,
             doi := dois.find? (fun d => strContains (lowerStr p.2) (lowerStr d)),
             raw_match := none }))
  ∧ ((buildFromParsed [(1, c10text)] ["10.1000/xyz123"]).map (fun c => c.doi)
       = [some "10.1000/xyz123"]
     ∧ strContains (lowerStr (pyTake500 c10text)) (lowerStr "10.1000/xyz123") = false) := by
  refine ⟨?_, by decide, by decide⟩
  rw [buildFromParsed_eq_map]
  apply List.map_congr_left
  intro p _
  rw [firstDoiIn_eq_find? dois p.2]

theorem mem_buildFromParsed {c : ExtractedCitation} {P : List (Nat × String)}
    {D : List String} (h : c ∈ buildFromParsed P D) :
    ∃ p ∈ P, c = { number := p.1, text := pyTake500 p.2, doi := firstDoiIn D p.2,
                   raw_match := none } := by
  induction P with
  | nil => simp [buildFromParsed] at h
  | cons p rest ih =>
    obtain ⟨n, t⟩ := p
    rw [buildFromParsed] at h
    rcases List.mem_cons.mp h with h | h
    · exact ⟨(n, t), List.mem_cons_self _ _, h⟩
    · obtain ⟨q, hq, hc⟩ := ih h
      exact ⟨q, List.mem_cons_of_mem _ hq, hc⟩

theorem mem_fallbackCitations {c : ExtractedCitation} {D : List String} :
    ∀ {i : Nat}, c ∈ fallbackCitations i D →
      ∃ d ∈ D, c.doi = some d ∧ c.text = "DOI: " ++ d := by
  induction D with
  | nil => intro i h; simp [fallbackCitations] at h
  | cons d ds ih =>
    intro i h
    rw [fallbackCitations] at h
    rcases List.mem_cons.mp h with h | h
    · exact ⟨d, List.mem_cons_self _ _, by rw [h], by rw [h]⟩
    · obtain ⟨e, he, h1, h2⟩ := ih h
      exact ⟨e, List.mem_cons_of_mem _ he, h1, h2⟩

theorem pyTake500_length_le (s : String) : (pyTake500 s).length ≤ 500 := by
  show (s.data.take 500).length ≤ 500
  rw [List.length_take]
  exact min_le_left _ _

def c7text : String := "10.1234/" ++ (⟨List.replicate 500 'a'⟩ : String)

/-- C7 counterexample: a successful extraction whose single (fallback-path)
citation has a 513-character text `DOI: 10.1234/aaa…`, exceeding the claimed
500-character cap. -/
theorem C7_counterexample :
    (extract_citations "paper.pdf" (PdfSource.ok c7text 3)).success = true
  ∧ ((extract_citations "paper.pdf" (PdfSource.ok c7text 3)).citations.map
       (fun c => c.text.length)) = [513] := by
  constructor
  · decide
  · decide

/-- C7 (corrected): in every successful extraction, each citation either has
text of at most 500 characters (the segmented path truncates with
`text[:500]`) or is a DOI-only fallback entry whose text is exactly
`"DOI: " ++ doi` with no truncation — and the latter exceeds 500 characters
whenever the DOI is longer than 495 characters. -/
theorem C7_citation_text_bound (fn text : String) (pages : Nat)
    (c : ExtractedCitation)
    (hc : c ∈ (extract_citations fn (PdfSource.ok text pages)).citations) :
    c.text.length ≤ 500 ∨ ∃ d, c.doi = some d ∧ c.text = "DOI: " ++ d := by
  rw [extract_citations] at hc
  by_cases ht : text = ""
  · rw [if_pos ht] at hc
    simp at hc
  · rw [if_neg ht] at hc
    simp only at hc
    by_cases hp : parse_numbered_citations (refText text) = []
    · rw [if_pos hp] at hc
      obtain ⟨d, _, h1, h2⟩ := mem_fallbackCitations hc
      exact Or.inr ⟨d, h1, h2⟩
    · rw [if_neg hp] at hc
      obtain ⟨p, _, hceq⟩ := mem_buildFromParsed hc
      refine Or.inl ?_
      rw [hceq]
      exact pyTake500_length_le p.2

def c7cit : ExtractedCitation :=
  { number := 1, text := "DOI: " ++ c7text, doi := some c7text }

/-- C7 witness: the amended bound applied to the concrete oversized fallback
citation of the counterexample document. -/
theorem C7_witness :
    c7cit.text.length ≤ 500 ∨ ∃ d, c7cit.doi = some d ∧ c7cit.text = "DOI: " ++ d :=
  C7_citation_text_bound "paper.pdf" c7text 3 c7cit (by decide)

/-- The acquisition-failure shapes of the spec's taxonomy: missing source,
unreadable content, or empty extracted text. -/
def acquisitionFailure : PdfSource → Prop
  | .fileNotFound _ => True
  | .readError _ => True
  | .ok text _ => text = ""

/-- C8 (confirmed): `success = false` exactly on document-acquisition
failures; failure results carry empty citation/DOI lists and a non-null
error; and a nonempty document with no detectable bibliography and no DOIs
yields a successful result with empty lists and no error. -/
theorem C8_failure_policy (fn : String) (src : PdfSource) :
    ((extract_citations fn src).success = false ↔ acquisitionFailure src)
  ∧ ((extract_citations fn src).success = false →
       (extract_citations fn src).citations = []
     ∧ (extract_citations fn src).dois_found = []
     ∧ (extract_citations fn src).error.isSome = true)
  ∧ (∀ text pages, src = PdfSource.ok text pages → text ≠ "" →
       find_references_section text = none → extract_dois text = [] →
       parse_numbered_citations text = [] →
       extract_citations fn src =
         { success := true, filename := fn, total_pages := pages,
           citations := [], dois_found := [], error := none }) := by
  refine ⟨?_, ?_, ?_⟩
  · cases src with
    | fileNotFound msg => simp [extract_citations, acquisitionFailure]
    | readError msg => simp [extract_citations, acquisitionFailure]
    | ok text pages =>
      by_cases ht : text = "" <;>
        simp [extract_citations, acquisitionFailure, ht]
  · intro hf
    cases src with
    | fileNotFound msg => simp [extract_citations]
    | readError msg => simp [extract_citations]
    | ok text pages =>
      by_cases ht : text = ""
      · simp [extract_citations, ht]
      · rw [extract_citations, if_neg ht] at hf
        simp at hf
  · intro text pages hsrc ht hfind hdois hparse
    subst hsrc
    have hrt : refText text = text := by rw [refText, hfind]
    rw [extract_citations, if_neg ht, hrt, hparse, hdois]
    simp [fallbackCitations]

/-- C8 witness: a missing file fails with empty lists and an error; text
with no bibliography and no DOIs succeeds with empty lists and no error. -/
theorem C8_witness :
    ((extract_citations "a.pdf" (PdfSource.fileNotFound "PDF not found: a.pdf")).citations = []
     ∧ (extract_citations "a.pdf" (PdfSource.fileNotFound "PDF not found: a.pdf")).dois_found = []
     ∧ (extract_citations "a.pdf" (PdfSource.fileNotFound "PDF not found: a.pdf")).error.isSome = true)
  ∧ extract_citations "b.pdf" (PdfSource.ok "hello world" 2) =
      { success := true, filename := "b.pdf", total_pages := 2,
        citations := [], dois_found := [], error := none } :=
  ⟨(C8_failure_policy "a.pdf" (PdfSource.fileNotFound "PDF not found: a.pdf")).2.1
     ((C8_failure_policy "a.pdf" (PdfSource.fileNotFound "PDF not found: a.pdf")).1.mpr
        trivial),
   (C8_failure_policy "b.pdf" (PdfSource.ok "hello world" 2)).2.2 "hello world" 2 rfl
     (by decide) (by decide) (by decide) (by decide)⟩

/-! ### Verifier (src/verifier.py) -/

structure VerificationResult where
  doi : String
  valid : Bool
  title : Option String := none
  authors : Option (List String) := none
  year : Option Int := none
  journal : Option String := none
  error : Option String := none
deriving DecidableEq

/-- The URL/scheme forms removed by the verifier's `clean_doi`; matched
case-sensitively with `startswith`, first match only (`break`). -/
def doiUrlForms : List String :=
  ["https://doi.org/", "http://doi.org/", "https://dx.doi.org/",
   "http://dx.doi.org/", "doi:", "DOI:"]

def dropFirstUrlForm : List String → List Char → List Char
  | [], l => l
  | p :: ps, l => if p.data.isPrefixOf l then l.drop p.data.length else dropFirstUrlForm ps l

/-- The verifier's trailing-punctuation set `. , ; : ) ] }` — unlike the
extractor's, it contains neither an apostrophe nor a double quote. -/
def verifierStripSet : List Char := ['.', ',', ';', ':', ')', ']', Char.ofNat 125]

/-- Python `doi.replace("%2F", "/")`: left-to-right, non-overlapping. -/
def replace2FAux : Nat → List Char → List Char
  | 0, l => l
  | _, [] => []
  | fuel + 1, '%' :: '2' :: 'F' :: rest => '/' :: replace2FAux fuel rest
  | fuel + 1, x :: xs => x :: replace2FAux fuel xs

/-- `clean_doi` from src/verifier.py: strip whitespace, drop the first
matching URL form, rstrip the punctuation set, decode `%2F`. -/
def verifier_clean_doi (doi : String) : String :=
  ⟨replace2FAux
      (pyRstrip verifierStripSet (dropFirstUrlForm doiUrlForms (pyStripL doi.data))).length
      (pyRstrip verifierStripSet (dropFirstUrlForm doiUrlForms (pyStripL doi.data)))⟩

/-- `re.match(r'^10\.\d{4,}/.+$', s)` as a boolean.  `\d{4,}` is greedy and
unbounded, so it can only hand over to `/` at the end of the maximal digit
run; `.` excludes newlines; `$` (no MULTILINE) matches at the end of the
string or just before a single final newline. -/
def doi_shape_ok (s : String) : Bool :=
  match s.data with
  | '1' :: '0' :: '.' :: rest =>
    let ds := rest.takeWhile Char.isDigit
    4 ≤ ds.length &&
      (match rest.drop ds.length with
       | '/' :: r =>
         let core := r.takeWhile (fun c => !(c = '\n'))
         0 < core.length &&
           (match r.drop core.length with
            | [] => true
            | ['\n'] => true
            | _ => false)
       | _ => false)
  | _ => false

/-- What the registry-lookup collaborator can answer for one request; the
JSON unpacking of a 200 response is modelled as collaborator-provided
fields. -/
structure CrossrefMeta where
  title : Option String := none
  authors : List String := []
  year : Option Int := none
  journal : Option String := none

inductive NetResponse where
  | status200 (meta : CrossrefMeta)
  | status404
  | statusOther (code : Nat)
  | timeout
  | requestError (msg : String)
  | otherError (msg : String)

/-- `verify_doi`, with the network request abstracted as an oracle invoked
on the cleaned DOI.  The two format guards return before the oracle is
consulted; `doi` in their results is the original argument, as in the
source. -/
def verify_doi (net : String → NetResponse) (doi : String) : VerificationResult :=
  if verifier_clean_doi doi = "" then
    { doi := doi, valid := false, error := some "Empty or invalid DOI format" }
  else if !(doi_shape_ok (verifier_clean_doi doi)) then
    { doi := doi, valid := false,
      error := some ("Invalid DOI format: " ++ verifier_clean_doi doi) }
  else
    match net (verifier_clean_doi doi) with
    | .status200 m =>
      { doi := verifier_clean_doi doi, valid := true, title := m.title,
        authors := if m.authors = [] then none else some m.authors,
        year := m.year, journal := m.journal }
    | .status404 =>
      { doi := verifier_clean_doi doi, valid := false,
        error := some "DOI not found in CrossRef" }
    | .statusOther code =>
      { doi := verifier_clean_doi doi, valid := false,
        error := some ("CrossRef API error: HTTP " ++ toString code) }
    | .timeout =>
      { doi := verifier_clean_doi doi, valid := false,
        error := some "CrossRef API timeout" }
    | .requestError m =>
      { doi := verifier_clean_doi doi, valid := false,
        error := some ("Request failed: " ++ m) }
    | .otherError m =>
      { doi := verifier_clean_doi doi, valid := false,
        error := some ("Unexpected error: " ++ m) }

/-- C6 counterexample: the verifier's `clean_doi` leaves a trailing double
quote in place (its rstrip set has no quote characters) and does not remove
an `&name;` entity, contradicting the claimed full normalization. -/
theorem C6_counterexample :
    verifier_clean_doi "10.1234/abc\"" = "10.1234/abc\""
  ∧ ("10.1234/abc\"" : String) ≠ "10.1234/abc"
  ∧ verifier_clean_doi "10.9876/a&amp;b" = "10.9876/a&amp;b"
  ∧ ("10.9876/a&amp;b" : String) ≠ "10.9876/ab" := by decide

/-- Spec-side: remove the single first-listed URL form that is a prefix of
the string, if any. -/
def specDropUrlForm (l : List Char) : List Char :=
  match doiUrlForms.find? (fun p => p.data.isPrefixOf l) with
  | some p => l.drop p.data.length
  | none => l

/-- Spec-side: decode every literal `%2F` to `/`, left to right. -/
def specReplace2F : List Char → List Char
  | [] => []
  | '%' :: '2' :: 'F' :: rest => '/' :: specReplace2F rest
  | x :: xs => x :: specReplace2F xs

theorem dropFirstUrlForm_eq_spec (l : List Char) :
    dropFirstUrlForm doiUrlForms l = specDropUrlForm l := by
  rw [specDropUrlForm]
  show dropFirstUrlForm doiUrlForms l = _
  induction doiUrlForms with
  | nil => rfl
  | cons p ps ih =>
    rw [dropFirstUrlForm, List.find?_cons]
    by_cases hp : p.data.isPrefixOf l
    · rw [if_pos hp, hp]
    · have hb : p.data.isPrefixOf l = false := by
        revert hp; cases p.data.isPrefixOf l <;> simp
      rw [if_neg hp, hb]
      exact ih

theorem replace2FAux_eq_spec (l : List Char) :
    ∀ fuel : Nat, l.length ≤ fuel → replace2FAux fuel l = specReplace2F l := by
  induction l using specReplace2F.induct with
  | case1 => intro fuel _; cases fuel <;> rfl
  | case2 rest ih =>
    intro fuel hf
    cases fuel with
    | zero => simp at hf
    | succ f =>
      show '/' :: replace2FAux f rest = '/' :: specReplace2F rest
      rw [ih f (by simp at hf; omega)]
  | case3 x xs hne ih =>
    intro fuel hf
    cases fuel with
    | zero => simp at hf
    | succ f =>
      rw [replace2FAux.eq_4 f x xs hne, specReplace2F.eq_3 x xs hne,
        ih f (by simp at hf; omega)]

/-- C6 (corrected): the verifier's `clean_doi` strips surrounding
whitespace, removes the first matching URL form (case-sensitively), strips
trailing characters from `. , ; : ) ] }` only — the apostrophe and double
quote of the extractor's set are not in it — and decodes every `%2F`; it
performs no HTML-entity removal (that happens only in the extractor's
`clean_doi`, which also strips trailing quotes). -/
theorem C6_verifier_clean (doi : String) :
    verifier_clean_doi doi =
      ⟨specReplace2F (pyRstrip verifierStripSet (specDropUrlForm (pyStripL doi.data)))⟩
  ∧ verifierStripSet.contains (Char.ofNat 39) = false
  ∧ verifierStripSet.contains (Char.ofNat 34) = false
  ∧ extractorStripSet.contains (Char.ofNat 39) = true
  ∧ extractorStripSet.contains (Char.ofNat 34) = true
  ∧ clean_doi "10.9876/a&amp;b" = "10.9876/ab" := by
  refine ⟨?_, by decide, by decide, by decide, by decide, by decide⟩
  rw [verifier_clean_doi, dropFirstUrlForm_eq_spec,
    replace2FAux_eq_spec _ _ (Nat.le_refl _)]

/-- C9 (confirmed): when the cleaned DOI is empty or fails the
`^10\.\d{4,}/.+$` shape check, `verify_doi` returns an invalid result with a
format error without consulting the registry: the result is independent of
the network oracle, `valid` is false, and the error is one of the two format
messages (never the not-found message). -/
theorem C9_malformed_never_sent (doi : String)
    (h : verifier_clean_doi doi = "" ∨ doi_shape_ok (verifier_clean_doi doi) = false) :
    (∀ net net', verify_doi net doi = verify_doi net' doi)
  ∧ ∀ net, (verify_doi net doi).valid = false
      ∧ ((verify_doi net doi).error = some "Empty or invalid DOI format"
         ∨ (verify_doi net doi).error
             = some ("Invalid DOI format: " ++ verifier_clean_doi doi)) := by
  by_cases he : verifier_clean_doi doi = ""
  · constructor
    · intro net net'; rw [verify_doi, if_pos he, verify_doi, if_pos he]
    · intro net; rw [verify_doi, if_pos he]
      exact ⟨rfl, Or.inl rfl⟩
  · have hs : doi_shape_ok (verifier_clean_doi doi) = false := by
      rcases h with h | h
      · exact absurd h he
      · exact h
    have hneg : (!(doi_shape_ok (verifier_clean_doi doi))) = true := by rw [hs]; rfl
    constructor
    · intro net net'
      rw [verify_doi, if_neg he, if_pos hneg, verify_doi, if_neg he, if_pos hneg]
    · intro net
      rw [verify_doi, if_neg he, if_pos hneg]
      exact ⟨rfl, Or.inr rfl⟩

/-- C9 witness: `"banana"` survives cleaning unchanged, fails the shape
check, and is rejected identically under two different network oracles. -/
theorem C9_witness :
    verify_doi (fun _ => NetResponse.status404) "banana"
      = verify_doi (fun _ => NetResponse.timeout) "banana"
  ∧ (verify_doi (fun _ => NetResponse.status404) "banana").valid = false :=
  ⟨(C9_malformed_never_sent "banana" (Or.inr (by decide))).1 _ _,
   ((C9_malformed_never_sent "banana" (Or.inr (by decide))).2 _).1⟩
